import Mathlib

/-
Verification development for the FlowState repository: a shallow embedding
of the multi-session time-tracking and tag-analytics engine together with
the frontend helper functions, and theorems settling the specification
claims against it.

Conventions of the embedding:
- JavaScript numbers that hold whole minutes or timestamps are modelled as
  Int; Math.floor(a / b) on such values is Int.fdiv, and the JavaScript
  remainder operator (sign of the dividend) is Int.tmod.
- A JavaScript value that may be null or undefined is an Option; none
  models both null and undefined (both are falsy and neither is otherwise
  distinguished by the embedded code paths).
- JavaScript string truthiness (only the empty string is falsy) is
  modelled by comparison with the empty string.
-/

namespace FlowState

/-- Helper for jsIncludes: does the needle occur as a contiguous
sublist of the haystack. -/
def containsSub (needle : List Char) : List Char → Bool
  | [] => needle.isEmpty
  | c :: cs => needle.isPrefixOf (c :: cs) || containsSub needle cs

/-- JavaScript String.prototype.includes: substring containment test.
An empty needle is always contained. -/
def jsIncludes (s sub : String) : Bool :=
  containsSub sub.data s.data

/-- JavaScript String.prototype.toLowerCase restricted to
character-wise lowering. -/
def jsToLower (s : String) : String :=
  String.mk (s.data.map Char.toLower)

/-- JavaScript String.prototype.trim: strip leading and trailing
whitespace. -/
def jsTrim (s : String) : String :=
  String.mk (((s.data.dropWhile Char.isWhitespace).reverse.dropWhile
    Char.isWhitespace).reverse)

/-- The whitespace predicate used by jsTrim. -/
def wsp : Char → Bool := Char.isWhitespace

/-- Strip leading whitespace. -/
def trimL (l : List Char) : List Char := l.dropWhile wsp

/-- Strip trailing whitespace. -/
def trimR (l : List Char) : List Char := (l.reverse.dropWhile wsp).reverse

/-- JavaScript String.prototype.split with a single-space separator:
consecutive separators yield empty fields. -/
def splitOnChar (sep : Char) : List Char → List (List Char)
  | [] => [[]]
  | c :: cs =>
    match splitOnChar sep cs with
    | [] => [[]]
    | t :: ts => if c = sep then [] :: t :: ts else (c :: t) :: ts

/-- command.split(' ') from processVoiceCommand. -/
def jsSplitOnSpace (s : String) : List String :=
  (splitOnChar ' ' s.data).map (fun cs => String.mk cs)

/-- Helper for jsParseInt: read a non-empty all-digit string. -/
def digitsToNat? : List Char → Option Nat
  | [] => none
  | cs => go cs 0
where go : List Char → Nat → Option Nat
  | [], acc => some acc
  | c :: cs, acc => if c.isDigit then go cs (acc * 10 + (c.toNat - 48)) else none

/-- JavaScript parseInt applied to a text-input value, restricted to
the domain used by the claims: an optional minus sign followed by
digits. Strings whose parseInt result would be NaN are outside the
modelled domain and map to none. -/
def jsParseInt (s : String) : Option Int :=
  match s.data with
  | '-' :: rest => (digitsToNat? rest).map (fun n => -(n : Int))
  | cs => (digitsToNat? cs).map (fun n => (n : Int))

namespace TimeTracker

/-- formatDuration from src/frontend/src/components/TimeTracker.js
(lines 247-252). The argument none models a null or undefined
duration_minutes, which is falsy in JavaScript, as is 0. -/
def formatDuration (minutes : Option Int) : String :=
  match minutes with
  | none => "0m"
  | some m =>
    if m = 0 then "0m"
    else
      let hours := Int.fdiv m 60
      let mins := Int.tmod m 60
      if hours > 0 then s!"{hours}h {mins}m" else s!"{mins}m"

/-- The state of the start-session form in TimeTracker.js (lines 9-15).
All four text inputs are strings; energy_level is kept as an integer
(the select parses its value with parseInt). -/
structure SessionForm where
  task_description : String
  main_tag : String
  sub_tag : String
  estimated_minutes : String
  energy_level : Int
deriving Repr, DecidableEq

/-- The request body built by handleStartSession (TimeTracker.js lines
189-195) and sent to POST /sessions/start. -/
structure SessionData where
  task_description : String
  main_tag : String
  sub_tag : Option String
  estimated_minutes : Option Int
  energy_level : Int
deriving Repr, DecidableEq

/-- Outcome of one call to handleStartSession: either the early-return
alert for a blank main tag (no request is issued, TimeTracker.js lines
181-184), or the start request with its body. -/
inductive StartOutcome where
  | alertMainTagRequired
  | request (d : SessionData)
deriving Repr, DecidableEq

/-- The sessionData object of handleStartSession (TimeTracker.js lines
189-195): main_tag lowercased and trimmed; sub_tag lowercased and
trimmed when the field is a non-empty string and null otherwise;
estimated_minutes parsed when the field is a non-empty string and null
otherwise. -/
def sessionDataOf (form : SessionForm) : SessionData :=
  { task_description := form.task_description
    main_tag := jsTrim (jsToLower form.main_tag)
    sub_tag := if form.sub_tag ≠ "" then some (jsTrim (jsToLower form.sub_tag)) else none
    estimated_minutes :=
      if form.estimated_minutes ≠ "" then jsParseInt form.estimated_minutes else none
    energy_level := form.energy_level }

/-- handleStartSession from TimeTracker.js (lines 179-215): a blank
main_tag (empty after trim) alerts and returns before any request is
made; otherwise the normalized session data is sent. -/
def handleStartSession (form : SessionForm) : StartOutcome :=
  if jsTrim form.main_tag = "" then StartOutcome.alertMainTagRequired
  else StartOutcome.request (sessionDataOf form)

/-- The main tags of the commonTags array in TimeTracker.js
(lines 26-35). -/
def commonTagMains : List String :=
  ["work", "learning", "exercise", "creative", "admin", "wellness", "social", "personal"]

/-- The inline array of accepted main tags in processVoiceCommand
(TimeTracker.js line 116). -/
def inlineMainTagList : List String :=
  ["work", "learning", "exercise", "creative", "admin", "wellness", "social", "personal"]

/-- The isValidMainTag test of processVoiceCommand (TimeTracker.js
lines 113-116): the spoken word is accepted when some known user tag or
common main tag contains it as a substring, or it is in the fixed
list. -/
def isValidMainTag (userTags : List String) (mainTag : String) : Bool :=
  userTags.any (fun tag => jsIncludes (jsToLower tag) (jsToLower mainTag)) ||
  commonTagMains.any (fun t => jsIncludes (jsToLower t) (jsToLower mainTag)) ||
  inlineMainTagList.contains (jsToLower mainTag)

/-- Observable action of one processVoiceCommand call. startSession
models the call to handleStartSession; alertSetTagFirst the alert asking
for a main tag; setTags the setSessionForm update of the two tag fields;
unrecognized covers both the unrecognized-command log and the silent
fall-through for an empty word list, neither of which changes any
state. -/
inductive VoiceAction where
  | startSession
  | alertSetTagFirst
  | setTags (mainTag subTag : String)
  | unrecognized
deriving Repr, DecidableEq

/-- processVoiceCommand from TimeTracker.js (lines 87-139).
mainTagField is the current sessionForm.main_tag; the transcript passed
in has already been lowercased and trimmed by the recognition handler
(line 58). -/
def processVoiceCommand (mainTagField : String) (userTags : List String)
    (command : String) : VoiceAction :=
  if jsIncludes command "start" ∨ jsIncludes command "begin" ∨ command = "go" then
    if jsTrim mainTagField ≠ "" then VoiceAction.startSession
    else VoiceAction.alertSetTagFirst
  else
    let words := (jsSplitOnSpace command).filter (fun w => 0 < w.length)
    if 1 ≤ words.length then
      let mainTag := words.headD ""
      let subTagWords := words.drop 1
      let subTag := if 0 < subTagWords.length then String.intercalate "-" subTagWords else ""
      if isValidMainTag userTags mainTag ∨ 2 ≤ words.length then
        VoiceAction.setTags (jsToLower mainTag) (jsToLower subTag)
      else VoiceAction.unrecognized
    else VoiceAction.unrecognized

/-- The voice start path: when processVoiceCommand recognizes a start
command it invokes handleStartSession on the same form state, so the
request body is built by the same function as the form path. -/
def voicePathOutcome (form : SessionForm) (userTags : List String)
    (command : String) : Option StartOutcome :=
  match processVoiceCommand form.main_tag userTags command with
  | VoiceAction.startSession => some (handleStartSession form)
  | _ => none

end TimeTracker

namespace Dashboard

/-- formatDuration from src/frontend/src/components/Dashboard.js
(lines 60-65); textually identical to the TimeTracker copy. -/
def formatDuration (minutes : Option Int) : String :=
  match minutes with
  | none => "0m"
  | some m =>
    if m = 0 then "0m"
    else
      let hours := Int.fdiv m 60
      let mins := Int.tmod m 60
      if hours > 0 then s!"{hours}h {mins}m" else s!"{mins}m"

end Dashboard

namespace Analytics

/-- formatDuration from src/frontend/src/components/Analytics.js
(lines 34-39); textually identical to the TimeTracker copy. -/
def formatDuration (minutes : Option Int) : String :=
  match minutes with
  | none => "0m"
  | some m =>
    if m = 0 then "0m"
    else
      let hours := Int.fdiv m 60
      let mins := Int.tmod m 60
      if hours > 0 then s!"{hours}h {mins}m" else s!"{mins}m"

end Analytics

namespace DashboardDraft

/-- formatDuration from the duplicated Dashboard draft in
src/unnamed/part_004 (lines 63-68); textually identical to the
TimeTracker copy. -/
def formatDuration (minutes : Option Int) : String :=
  match minutes with
  | none => "0m"
  | some m =>
    if m = 0 then "0m"
    else
      let hours := Int.fdiv m 60
      let mins := Int.tmod m 60
      if hours > 0 then s!"{hours}h {mins}m" else s!"{mins}m"

end DashboardDraft

namespace Registry

/-- Modelled from the spec: the backend Session Registry is not present
under src/ (only its HTTP callers in the React frontend are); the status
values follow spec section 3. -/
inductive Status where
  | active
  | paused
  | completed
  | cancelled
deriving Repr, DecidableEq

/-- A status from which lifecycle operations are still legal. -/
def Status.isLive : Status → Bool
  | Status.active => true
  | Status.paused => true
  | _ => false

/-- completed and cancelled are the terminal states. -/
def Status.isTerminal : Status → Bool
  | Status.completed => true
  | Status.cancelled => true
  | _ => false

/-- Modelled from the spec: the Session entity of spec section 3.
Timestamps are local-epoch seconds. -/
structure Session where
  session_id : Nat
  user_id : Nat
  main_tag : String
  sub_tag : Option String
  task_description : String
  estimated_minutes : Option Int
  energy_level : Int
  start_time : Int
  end_time : Option Int
  status : Status
  focus_quality : Option Int
  interruptions : Option Int
  satisfaction : Option Int
  user_notes : Option String
deriving Repr, DecidableEq

/-- Modelled from the spec: the error taxonomy of spec section 7 for
registry operations. -/
inductive RegError where
  | validationError
  | notFound
  | invalidStateTransition (current : Status)
deriving Repr, DecidableEq

/-- The end-of-session feedback payload of the end operation. -/
structure EndData where
  focus_quality : Int
  energy_level : Int
  interruptions : Int
  satisfaction : Int
  user_notes : Option String
deriving Repr, DecidableEq

/-- Feedback ranges of spec sections 3 and 7. -/
def validEndData (d : EndData) : Prop :=
  1 ≤ d.focus_quality ∧ d.focus_quality ≤ 5 ∧
  1 ≤ d.energy_level ∧ d.energy_level ≤ 5 ∧
  0 ≤ d.interruptions ∧
  1 ≤ d.satisfaction ∧ d.satisfaction ≤ 5

instance : DecidablePred validEndData := fun d => by
  unfold validEndData; infer_instance

/-- The lifecycle operations that target an existing session. -/
inductive LifecycleOp where
  | pause
  | resume
  | endSession (d : EndData)
  | cancel
deriving Repr, DecidableEq

/-- Which statuses each lifecycle operation is legal from
(spec section 4.1). -/
def opAllowed : LifecycleOp → Status → Bool
  | LifecycleOp.pause, Status.active => true
  | LifecycleOp.resume, Status.paused => true
  | LifecycleOp.endSession _, Status.active => true
  | LifecycleOp.endSession _, Status.paused => true
  | LifecycleOp.cancel, Status.active => true
  | LifecycleOp.cancel, Status.paused => true
  | _, _ => false

/-- Modelled from the spec: one lifecycle operation applied to one
session at time now (spec section 4.1). The result is the session after
the operation together with the error, if any; on an error the returned
session is the input unchanged (operations fail closed, spec
section 7). The status is checked before the feedback fields. -/
def applyOp (s : Session) (op : LifecycleOp) (now : Int) : Session × Option RegError :=
  match op with
  | LifecycleOp.pause =>
    if s.status = Status.active then ({ s with status := Status.paused }, none)
    else (s, some (RegError.invalidStateTransition s.status))
  | LifecycleOp.resume =>
    if s.status = Status.paused then ({ s with status := Status.active }, none)
    else (s, some (RegError.invalidStateTransition s.status))
  | LifecycleOp.endSession d =>
    if s.status = Status.active ∨ s.status = Status.paused then
      if validEndData d then
        ({ s with
            status := Status.completed
            end_time := some now
            focus_quality := some d.focus_quality
            energy_level := d.energy_level
            interruptions := some d.interruptions
            satisfaction := some d.satisfaction
            user_notes := d.user_notes }, none)
      else (s, some RegError.validationError)
    else (s, some (RegError.invalidStateTransition s.status))
  | LifecycleOp.cancel =>
    if s.status = Status.active ∨ s.status = Status.paused then
      ({ s with status := Status.cancelled }, none)
    else (s, some (RegError.invalidStateTransition s.status))

/-- A whole sequence of lifecycle operations applied to one session;
each pair carries the operation and its arrival time. -/
def applySeq (s : Session) (ops : List (LifecycleOp × Int)) : Session :=
  ops.foldl (fun cur p => (applyOp cur p.1 p.2).1) s

/-- The legal transition graph of spec section 8: active and paused
toggle, and either may terminate to completed or cancelled. -/
def legalEdge (a b : Status) : Prop :=
  (a = Status.active ∧ b = Status.paused) ∨
  (a = Status.paused ∧ b = Status.active) ∨
  ((a = Status.active ∨ a = Status.paused) ∧
   (b = Status.completed ∨ b = Status.cancelled))

/-- Modelled from the spec: the per-user registry state, holding all
sessions, the next session id, and the tag vocabulary. -/
structure SessionsState where
  sessions : List Session
  nextId : Nat
  vocabulary : List (String × Option String)
deriving Repr, DecidableEq

/-- Idempotent vocabulary add (spec section 4.2). -/
def recordTag (vocab : List (String × Option String))
    (t : String × Option String) : List (String × Option String) :=
  if t ∈ vocab then vocab else vocab ++ [t]

/-- Estimated minutes, if given, must be positive (spec section 4.1). -/
def estimatedMinutesBad : Option Int → Bool
  | some e => if e ≤ 0 then true else false
  | none => false

/-- The session created by a successful start: active, started now,
carrying the submitted data (spec sections 3 and 4.1). -/
def newSession (id : Nat) (user : Nat) (d : TimeTracker.SessionData)
    (now : Int) : Session :=
  { session_id := id
    user_id := user
    main_tag := d.main_tag
    sub_tag := d.sub_tag
    task_description := d.task_description
    estimated_minutes := d.estimated_minutes
    energy_level := d.energy_level
    start_time := now
    end_time := none
    status := Status.active
    focus_quality := none
    interruptions := none
    satisfaction := none
    user_notes := none }

/-- Modelled from the spec: the start operation of spec section 4.1.
Validation checks the normalized main tag, the energy range and the
estimated minutes; no check inspects the existing sessions, so there is
no limit on concurrently active sessions. On success the new session is
active, the tag is recorded in the vocabulary, and the session is
appended to the registry. -/
def start (reg : SessionsState) (user : Nat) (d : TimeTracker.SessionData)
    (now : Int) : Except RegError (SessionsState × Session) :=
  if jsTrim d.main_tag = "" then Except.error RegError.validationError
  else if d.energy_level < 1 ∨ 5 < d.energy_level then
    Except.error RegError.validationError
  else if estimatedMinutesBad d.estimated_minutes then
    Except.error RegError.validationError
  else
    Except.ok
      ({ sessions := reg.sessions ++ [newSession reg.nextId user d now]
         nextId := reg.nextId + 1
         vocabulary := recordTag reg.vocabulary (d.main_tag, d.sub_tag) },
       newSession reg.nextId user d now)

/-- Starting a list of sessions in order, stopping at the first
error. -/
def startMany (reg : SessionsState) (user : Nat)
    (ds : List TimeTracker.SessionData) (now : Int) :
    Except RegError SessionsState :=
  match ds with
  | [] => Except.ok reg
  | d :: rest =>
    match start reg user d now with
    | Except.error e => Except.error e
    | Except.ok (reg2, _) => startMany reg2 user rest now

/-- One entry of listActive: the session annotated with its
live-computed duration (spec section 4.1). -/
structure ActiveSessionView where
  session : Session
  duration_minutes : Int
deriving Repr, DecidableEq

/-- Modelled from the spec: listActive returns all active or paused
sessions of the user, each with duration_minutes computed live from now
(spec sections 3 and 4.1). -/
def listActive (reg : SessionsState) (user : Nat) (now : Int) :
    List ActiveSessionView :=
  (reg.sessions.filter (fun s => s.user_id == user && s.status.isLive)).map
    (fun s => { session := s, duration_minutes := Int.fdiv (now - s.start_time) 60 })

/-- Valid start inputs per spec section 4.1. -/
def validStartInputs (d : TimeTracker.SessionData) : Prop :=
  jsTrim d.main_tag ≠ "" ∧ 1 ≤ d.energy_level ∧ d.energy_level ≤ 5 ∧
  estimatedMinutesBad d.estimated_minutes = false

instance : DecidablePred validStartInputs := fun d => by
  unfold validStartInputs; infer_instance

end Registry

namespace Aggregator

open Registry

/-- Derived duration of a session: (end_time or now) minus start_time,
floored to whole minutes (spec section 3). -/
def durationMinutes (now : Int) (s : Session) : Int :=
  Int.fdiv ((s.end_time.getD now) - s.start_time) 60

/-- The local calendar day of a local-epoch-seconds timestamp. -/
def localDay (t : Int) : Int :=
  Int.fdiv t 86400

/-- Modelled from the spec: the sessions included in dailySummary are
the completed sessions of the user whose start_time falls on the given
date (spec section 4.3); cancelled sessions are excluded from all
aggregation (spec section 3). -/
def includedForDate (sessions : List Session) (user : Nat) (date : Int) :
    List Session :=
  sessions.filter
    (fun s => s.user_id == user && s.status == Status.completed &&
      localDay s.start_time == date)

/-- Add minutes to a main-tag bucket of the categories map, keeping the
map as an in-order association list. -/
def addCategory (cats : List (String × Int)) (key : String) (m : Int) :
    List (String × Int) :=
  match cats with
  | [] => [(key, m)]
  | (k, v) :: rest =>
    if k = key then (k, v + m) :: rest else (k, v) :: addCategory rest key m

/-- categories sums duration_minutes per main_tag (spec section 4.3). -/
def categoriesOf (now : Int) (included : List Session) : List (String × Int) :=
  included.foldl (fun acc s => addCategory acc s.main_tag (durationMinutes now s)) []

/-- Result shape of dailySummary (spec section 4.3); none models the
null/absent averages. -/
structure DailySummary where
  total_minutes : Int
  entries_count : Nat
  average_energy : Option Rat
  average_focus : Option Rat
  categories : List (String × Int)
deriving Repr, DecidableEq

/-- Modelled from the spec: dailySummary of spec section 4.3. Averages
are arithmetic means over the included sessions and are null when
entries_count is zero; the division is guarded and never performed over
an empty set. -/
def dailySummary (reg : SessionsState) (user : Nat) (date : Int) (now : Int) :
    DailySummary :=
  let included := includedForDate reg.sessions user date
  let n := included.length
  { total_minutes := (included.map (durationMinutes now)).sum
    entries_count := n
    average_energy :=
      if n = 0 then none
      else some ((included.map (fun s => (s.energy_level : Rat))).sum / n)
    average_focus :=
      if n = 0 then none
      else some ((included.map (fun s => ((s.focus_quality.getD 0 : Int) : Rat))).sum / n)
    categories := categoriesOf now included }

/-- The completed sessions of a user, in registry order. -/
def completedSessions (reg : SessionsState) (user : Nat) : List Session :=
  reg.sessions.filter (fun s => s.user_id == user && s.status == Status.completed)

/-- Modelled from the spec: the AggregatedPattern value of spec
section 3. -/
structure AggregatedPattern where
  description : String
  confidence : String
  sample_size : Nat
  limitations : String
deriving Repr, DecidableEq

/-- The two result shapes of patterns (spec section 4.3): computed
patterns, or the typed insufficient-data signal. -/
inductive PatternsResult where
  | computed (patterns : List (String × AggregatedPattern))
  | insufficientData (message : String) (required_sessions : Nat)
      (current_sessions : Nat)
deriving Repr, DecidableEq

/-- The hard minimum of total completed sessions before patterns are
computed (spec section 4.3). -/
def minimumSessionsForPatterns : Nat := 10

/-- Modelled from the spec: confidence derived strictly from sample
size (spec section 4.4); none means no insight is emitted for the
grouping at all. -/
def confidenceForSampleSize (n : Nat) : Option String :=
  if n < 10 then none
  else if n < 30 then some "low"
  else if n < 100 then some "moderate"
  else some "high"

/-- Pick the entry with the largest minute total; earlier entries win
ties. -/
def maxBySnd : List (String × Int) → Option (String × Int)
  | [] => none
  | p :: rest =>
    match maxBySnd rest with
    | none => some p
    | some q => if q.2 > p.2 then some q else some p

/-- Modelled from the spec: the illustrative most-time rule of spec
section 4.4, emitted with sample-size confidence and a limitations
string. -/
def computePatterns (now : Int) (completed : List Session) :
    List (String × AggregatedPattern) :=
  match confidenceForSampleSize completed.length,
      maxBySnd (categoriesOf now completed) with
  | some conf, some (tag, _) =>
    [("most_time",
      { description := "Most time spent on #" ++ tag
        confidence := conf
        sample_size := completed.length
        limitations := "Based only on tracked sessions; context is not captured" })]
  | _, _ => []

/-- The message of the insufficient-data shape. -/
def insufficientMessage : String :=
  "Not enough completed sessions to compute patterns"

/-- Modelled from the spec: patterns of spec section 4.3: with fewer
than 10 total completed sessions return the insufficient-data shape
with the threshold and the current count; otherwise return computed
patterns. -/
def patterns (reg : SessionsState) (user : Nat) (now : Int) : PatternsResult :=
  let completed := completedSessions reg user
  if completed.length < minimumSessionsForPatterns then
    PatternsResult.insufficientData insufficientMessage
      minimumSessionsForPatterns completed.length
  else
    PatternsResult.computed (computePatterns now completed)

/-- Modelled from the spec: an emitted insight of spec section 4.4 with
its supporting evidence and limitations. -/
structure Insight where
  description : String
  confidence : String
  sample_size : Nat
  supporting_evidence : List String
  limitations : String
deriving Repr, DecidableEq

/-- Modelled from the spec: emit an insight for a grouping, with
confidence derived from the sample size alone; below the threshold no
insight is emitted for the grouping (spec section 4.4). -/
def maybeInsight (description : String) (evidence : List String)
    (limitations : String) (sample_size : Nat) : Option Insight :=
  (confidenceForSampleSize sample_size).map (fun conf =>
    { description := description
      confidence := conf
      sample_size := sample_size
      supporting_evidence := evidence
      limitations := limitations })

end Aggregator

namespace Analytics

/-- getConfidenceColor from src/frontend/src/components/Analytics.js
(lines 41-48); none models an undefined confidence, for which the
optional chaining falls to the default branch. -/
def getConfidenceColor (confidence : Option String) : String :=
  match confidence with
  | none => "text-gray-600 bg-gray-100"
  | some c =>
    let lc := jsToLower c
    if lc = "high" then "text-green-600 bg-green-100"
    else if lc = "moderate" then "text-yellow-600 bg-yellow-100"
    else if lc = "low" then "text-orange-600 bg-orange-100"
    else "text-gray-600 bg-gray-100"

/-- What the patterns section of Analytics.js (lines 187-210) renders:
the pattern cards, the insufficient-data box, or nothing. -/
inductive PatternsRender where
  | patternCards (entries : List (String × Aggregator.AggregatedPattern))
  | insufficientBox (message : String) (required current : Nat)
  | nothing
deriving Repr, DecidableEq

/-- The patterns branch of Analytics.js (lines 187-210): render cards
when patterns.patterns exists and is non-empty, else the box when
patterns.message is truthy, else null. The Option input models the
null state before data loads. -/
def renderPatternsSection (r : Option Aggregator.PatternsResult) : PatternsRender :=
  match r with
  | some (Aggregator.PatternsResult.computed ps) =>
    if 0 < ps.length then PatternsRender.patternCards ps else PatternsRender.nothing
  | some (Aggregator.PatternsResult.insufficientData msg req cur) =>
    if msg ≠ "" then PatternsRender.insufficientBox msg req cur
    else PatternsRender.nothing
  | none => PatternsRender.nothing

end Analytics

/-- toFixed(1) of a JavaScript number, restricted to the non-negative
rationals the averages take: round to one decimal place and print as
integer part, dot, tenths digit. -/
def jsToFixed1 (a : Rat) : String :=
  let n : Int := round (a * 10)
  s!"{Int.fdiv n 10}.{(Int.tmod n 10).natAbs}"

namespace Dashboard

/-- The Avg Energy cell of Dashboard.js (lines 174-179): a truthy
average renders toFixed(1) plus /5, anything falsy (null, undefined or
0) renders the N/A text. -/
def renderAvgEnergy (avg : Option Rat) : String :=
  match avg with
  | some a => if a ≠ 0 then jsToFixed1 a ++ "/5" else "N/A"
  | none => "N/A"

end Dashboard

namespace Demo

/-- The Average Energy line of getDailySummary in
src/frontend/public/demo.html (line 324): optional chaining plus
logical-or renders N/A exactly when the average is null or
undefined. -/
def renderAvgEnergy (avg : Option Rat) : String :=
  (match avg with
   | some a => jsToFixed1 a
   | none => "N/A") ++ "/5"

/-- The Average Focus line of getDailySummary in demo.html
(line 325), identical in structure. -/
def renderAvgFocus (avg : Option Rat) : String :=
  (match avg with
   | some a => jsToFixed1 a
   | none => "N/A") ++ "/5"

end Demo

/-- The full start path: the TimeTracker submit handler followed, when a
request is issued, by the registry start operation. none models the
early return with no request. -/
def submitStart (reg : Registry.SessionsState) (user : Nat)
    (form : TimeTracker.SessionForm) (now : Int) :
    Option (Except Registry.RegError (Registry.SessionsState × Registry.Session)) :=
  match TimeTracker.handleStartSession form with
  | TimeTracker.StartOutcome.alertMainTagRequired => none
  | TimeTracker.StartOutcome.request d => some (Registry.start reg user d now)

namespace Fixtures

/-- A registry with no sessions. -/
def emptyReg : Registry.SessionsState :=
  { sessions := [], nextId := 0, vocabulary := [] }

/-- A concrete completed session. -/
def doneSession (i : Nat) : Registry.Session :=
  { session_id := i
    user_id := 1
    main_tag := "work"
    sub_tag := none
    task_description := ""
    estimated_minutes := none
    energy_level := 3
    start_time := 0
    end_time := some 3600
    status := Registry.Status.completed
    focus_quality := some 4
    interruptions := some 0
    satisfaction := some 4
    user_notes := none }

/-- A registry holding exactly 9 completed sessions of user 1. -/
def reg9 : Registry.SessionsState :=
  { sessions := (List.range 9).map doneSession, nextId := 9, vocabulary := [] }

/-- A registry holding exactly 10 completed sessions of user 1. -/
def reg10 : Registry.SessionsState :=
  { sessions := (List.range 10).map doneSession, nextId := 10, vocabulary := [] }

/-- A concrete cancelled session. -/
def cancelledSession : Registry.Session :=
  { doneSession 0 with
      status := Registry.Status.cancelled
      end_time := none
      focus_quality := none
      interruptions := none
      satisfaction := none }

/-- A registry whose only session is cancelled. -/
def regCancelledOnly : Registry.SessionsState :=
  { sessions := [cancelledSession], nextId := 1, vocabulary := [] }

/-- Concrete valid start data. -/
def dWork : TimeTracker.SessionData :=
  { task_description := "demo"
    main_tag := "work"
    sub_tag := some "client"
    estimated_minutes := some 30
    energy_level := 4 }

/-- Concrete valid start data for a second session. -/
def dLearning : TimeTracker.SessionData :=
  { task_description := ""
    main_tag := "learning"
    sub_tag := some "react"
    estimated_minutes := none
    energy_level := 3 }

/-- A concrete form with unnormalized tag fields. -/
def exForm : TimeTracker.SessionForm :=
  { task_description := "t"
    main_tag := "  Work "
    sub_tag := " Client  "
    estimated_minutes := ""
    energy_level := 3 }

/-- A concrete form with a zero estimate. -/
def exFormZeroEst : TimeTracker.SessionForm :=
  { exForm with estimated_minutes := "0" }

/-- A concrete form whose main tag is whitespace only. -/
def exFormBlank : TimeTracker.SessionForm :=
  { exForm with main_tag := "   " }

/-- Concrete valid end-of-session feedback. -/
def exEndData : Registry.EndData :=
  { focus_quality := 5
    energy_level := 4
    interruptions := 0
    satisfaction := 5
    user_notes := none }

end Fixtures

end FlowState

section JsStringLemmas

open FlowState

theorem toNat_ofNat_valid (n : Nat) (h : n < 55296) : (Char.ofNat n).toNat = n := by
  unfold Char.ofNat
  rw [dif_pos (by unfold Nat.isValidChar; left; omega)]
  unfold Char.ofNatAux Char.toNat
  simp [UInt32.toNat]

theorem char_eq_iff_toNat (c d : Char) : c = d ↔ c.toNat = d.toNat := by
  constructor
  · intro h; rw [h]
  · intro h
    apply Char.ext
    exact UInt32.toNat.inj h

theorem isWhitespace_toLower (c : Char) :
    (Char.toLower c).isWhitespace = c.isWhitespace := by
  unfold Char.toLower
  dsimp only
  split
  · next h =>
    simp only [ge_iff_le, Bool.and_eq_true, decide_eq_true_eq] at h
    obtain ⟨h1, h2⟩ := h
    have ht : (Char.ofNat (c.toNat + 32)).toNat = c.toNat + 32 :=
      toNat_ofNat_valid _ (by omega)
    unfold Char.isWhitespace
    simp only [char_eq_iff_toNat, ht,
      show (' ').toNat = 32 from rfl, show ('\t').toNat = 9 from rfl,
      show ('\x0d').toNat = 13 from rfl, show ('\n').toNat = 10 from rfl]
    rw [Bool.eq_iff_iff]
    simp only [Bool.or_eq_true, decide_eq_true_eq]
    omega
  · rfl

theorem string_mk_eq_empty_iff (l : List Char) : String.mk l = "" ↔ l = [] := by
  constructor
  · intro h
    have := congrArg String.data h
    simpa using this
  · intro h; rw [h]

theorem dropWhile_all_iff (p : Char → Bool) (l : List Char) :
    (∀ x ∈ l.dropWhile p, p x = true) ↔ (∀ x ∈ l, p x = true) := by
  induction l with
  | nil => simp
  | cons c cs ih =>
    by_cases hc : p c = true
    · rw [List.dropWhile_cons_of_pos hc]
      simp [hc, ih]
    · rw [List.dropWhile_cons_of_neg hc]

theorem jsTrim_eq_empty_iff (s : String) :
    jsTrim s = "" ↔ ∀ c ∈ s.data, c.isWhitespace = true := by
  unfold jsTrim
  rw [string_mk_eq_empty_iff, List.reverse_eq_nil_iff, List.dropWhile_eq_nil_iff]
  constructor
  · intro h
    rw [← dropWhile_all_iff Char.isWhitespace s.data]
    intro x hx
    exact h x (by simpa using List.mem_reverse.mpr hx)
  · intro h x hx
    exact h x ((List.dropWhile_sublist _).subset (List.mem_reverse.mp hx))

theorem jsTrim_toLower_eq_empty_iff (s : String) :
    jsTrim (jsToLower s) = "" ↔ jsTrim s = "" := by
  rw [jsTrim_eq_empty_iff, jsTrim_eq_empty_iff]
  unfold jsToLower
  constructor
  · intro h c hc
    have := h (Char.toLower c) (by
      show Char.toLower c ∈ (String.mk (s.data.map Char.toLower)).data
      simpa using List.mem_map_of_mem Char.toLower hc)
    rwa [isWhitespace_toLower] at this
  · intro h c hc
    have hc2 : c ∈ s.data.map Char.toLower := by simpa using hc
    obtain ⟨d, hd, rfl⟩ := List.mem_map.mp hc2
    rw [isWhitespace_toLower]
    exact h d hd

theorem dropWhile_dropWhile (p : Char → Bool) (l : List Char) :
    (l.dropWhile p).dropWhile p = l.dropWhile p := by
  induction l with
  | nil => rfl
  | cons c cs ih =>
    by_cases hc : p c = true
    · rw [List.dropWhile_cons_of_pos hc]; exact ih
    · rw [List.dropWhile_cons_of_neg hc, List.dropWhile_cons_of_neg hc]

theorem dropWhile_fixed_of_prefix (p : Char → Bool) (v u : List Char)
    (hpre : v <+: u) (hu : u.dropWhile p = u) : v.dropWhile p = v := by
  cases v with
  | nil => rfl
  | cons a v2 =>
    obtain ⟨w, hw⟩ := hpre
    have hu2 : u = a :: (v2 ++ w) := by rw [← hw]; rfl
    have hna : ¬ p a = true := by
      intro hpa
      rw [hu2, List.dropWhile_cons_of_pos hpa] at hu
      have hlen : (List.dropWhile p (v2 ++ w)).length ≤ (v2 ++ w).length :=
        (List.dropWhile_suffix p).length_le
      have hlu := congrArg List.length hu
      simp only [List.length_cons] at hlu
      omega
    rw [List.dropWhile_cons_of_neg hna]

theorem isPre_trimR (l : List Char) : trimR l <+: l := by
  unfold trimR
  have := List.reverse_prefix.mpr (List.dropWhile_suffix (l := l.reverse) wsp)
  simpa using this

theorem trimL_fixed (l : List Char) : trimL (trimL l) = trimL l :=
  dropWhile_dropWhile wsp l

theorem trimL_trimR_of_fixed (u : List Char) (hu : trimL u = u) :
    trimL (trimR u) = trimR u :=
  dropWhile_fixed_of_prefix wsp (trimR u) u (isPre_trimR u) hu

theorem trimR_trimR (u : List Char) : trimR (trimR u) = trimR u := by
  unfold trimR
  rw [List.reverse_reverse, dropWhile_dropWhile]

theorem jsTrim_eq_trims (s : String) : jsTrim s = String.mk (trimR (trimL s.data)) :=
  rfl

theorem jsTrim_idem (s : String) : jsTrim (jsTrim s) = jsTrim s := by
  rw [jsTrim_eq_trims s, jsTrim_eq_trims]
  show String.mk (trimR (trimL (trimR (trimL s.data)))) = _
  rw [trimL_trimR_of_fixed (trimL s.data) (trimL_fixed s.data), trimR_trimR]

end JsStringLemmas

section FormatDurationFacts

open FlowState

theorem formatDuration_copies_agree (x : Option Int) :
    TimeTracker.formatDuration x = Dashboard.formatDuration x ∧
    TimeTracker.formatDuration x = Analytics.formatDuration x ∧
    TimeTracker.formatDuration x = DashboardDraft.formatDuration x :=
  ⟨rfl, rfl, rfl⟩

theorem formatDuration_ge60 (m : Int) (h : 60 ≤ m) :
    TimeTracker.formatDuration (some m) = s!"{Int.fdiv m 60}h {Int.tmod m 60}m" := by
  have hm0 : m ≠ 0 := by omega
  have hfd : 0 < Int.fdiv m 60 := by
    rw [Int.fdiv_eq_ediv m (by norm_num)]
    omega
  simp [TimeTracker.formatDuration, hm0, hfd]

theorem formatDuration_lt60 (m : Int) (h1 : 1 ≤ m) (h2 : m < 60) :
    TimeTracker.formatDuration (some m) = s!"{m}m" := by
  have hm0 : m ≠ 0 := by omega
  have hfd : ¬ (0 < Int.fdiv m 60) := by
    rw [Int.fdiv_eq_ediv m (by norm_num)]
    omega
  have hmod : Int.tmod m 60 = m := by
    rw [Int.tmod_eq_emod (by omega) (by norm_num)]
    omega
  simp [TimeTracker.formatDuration, hm0, hfd, hmod]

/-- C9: The four copies of formatDuration in TimeTracker.js,
Dashboard.js, Analytics.js and the duplicated Dashboard draft return
the same string on every input; for every integer m at least 60 that
string is the floor quotient followed by h and the remainder followed
by m; for every integer between 1 and 59 it is the minutes followed by
m; and for 0, null and undefined it is 0m. -/
theorem formatDuration_spec :
    (∀ x : Option Int,
      TimeTracker.formatDuration x = Dashboard.formatDuration x ∧
      TimeTracker.formatDuration x = Analytics.formatDuration x ∧
      TimeTracker.formatDuration x = DashboardDraft.formatDuration x) ∧
    (∀ m : Int, 60 ≤ m →
      TimeTracker.formatDuration (some m) = s!"{Int.fdiv m 60}h {Int.tmod m 60}m") ∧
    (∀ m : Int, 1 ≤ m → m < 60 →
      TimeTracker.formatDuration (some m) = s!"{m}m") ∧
    TimeTracker.formatDuration (some 0) = "0m" ∧
    TimeTracker.formatDuration none = "0m" :=
  ⟨formatDuration_copies_agree, formatDuration_ge60, formatDuration_lt60, rfl, rfl⟩

theorem formatDuration_spec_witness :
    ((60 : Int) ≤ 135 ∧ TimeTracker.formatDuration (some 135) = "2h 15m") ∧
    ((1 : Int) ≤ 45 ∧ (45 : Int) < 60 ∧ TimeTracker.formatDuration (some 45) = "45m") :=
  ⟨⟨by norm_num, (formatDuration_spec.2.1 135 (by norm_num)).trans (by decide)⟩,
   ⟨by norm_num, by norm_num,
    (formatDuration_spec.2.2.1 45 (by norm_num) (by norm_num)).trans (by decide)⟩⟩

end FormatDurationFacts

section LifecycleFacts

open FlowState FlowState.Registry

theorem applyOp_ok_legal (s : Session) (op : LifecycleOp) (now : Int)
    (h : (applyOp s op now).2 = none) :
    legalEdge s.status ((applyOp s op now).1).status := by
  cases op with
  | pause =>
    by_cases hs : s.status = Status.active
    · simp [applyOp, hs, legalEdge]
    · exfalso; simp [applyOp, hs] at h
  | resume =>
    by_cases hs : s.status = Status.paused
    · simp [applyOp, hs, legalEdge]
    · exfalso; simp [applyOp, hs] at h
  | endSession d =>
    by_cases hs : s.status = Status.active ∨ s.status = Status.paused
    · by_cases hd : validEndData d
      · simp only [applyOp, if_pos hs, if_pos hd, legalEdge]
        tauto
      · exfalso; simp [applyOp, hs, hd] at h
    · exfalso; simp [applyOp, hs] at h
  | cancel =>
    by_cases hs : s.status = Status.active ∨ s.status = Status.paused
    · simp only [applyOp, if_pos hs, legalEdge]
      tauto
    · exfalso; simp [applyOp, hs] at h

theorem applyOp_error_unchanged (s : Session) (op : LifecycleOp) (now : Int)
    (e : RegError) (h : (applyOp s op now).2 = some e) :
    (applyOp s op now).1 = s := by
  cases op with
  | pause =>
    by_cases hs : s.status = Status.active
    · exfalso; simp [applyOp, hs] at h
    · simp [applyOp, hs]
  | resume =>
    by_cases hs : s.status = Status.paused
    · exfalso; simp [applyOp, hs] at h
    · simp [applyOp, hs]
  | endSession d =>
    by_cases hs : s.status = Status.active ∨ s.status = Status.paused
    · by_cases hd : validEndData d
      · exfalso; simp [applyOp, hs, hd] at h
      · simp [applyOp, hs, hd]
    · simp [applyOp, hs]
  | cancel =>
    by_cases hs : s.status = Status.active ∨ s.status = Status.paused
    · exfalso; simp [applyOp, hs] at h
    · simp [applyOp, hs]

theorem applyOp_not_allowed (s : Session) (op : LifecycleOp) (now : Int)
    (h : opAllowed op s.status = false) :
    applyOp s op now = (s, some (RegError.invalidStateTransition s.status)) := by
  cases op <;> cases hs : s.status <;> simp_all [applyOp, opAllowed]

theorem opAllowed_terminal (op : LifecycleOp) (st : Status)
    (h : st.isTerminal = true) : opAllowed op st = false := by
  cases op <;> cases st <;> simp_all [opAllowed, Status.isTerminal]

theorem applySeq_terminal (s : Session) (ops : List (LifecycleOp × Int))
    (h : s.status.isTerminal = true) : applySeq s ops = s := by
  induction ops generalizing s with
  | nil => rfl
  | cons p rest ih =>
    have hstep : applyOp s p.1 p.2 = (s, some (RegError.invalidStateTransition s.status)) :=
      applyOp_not_allowed s p.1 p.2 (opAllowed_terminal p.1 s.status h)
    show applySeq ((applyOp s p.1 p.2).1) rest = s
    rw [hstep]
    exact ih s h

/-- C1: Lifecycle safety. A successful lifecycle operation moves the
status along an edge of the legal graph (active to paused, paused to
active, active or paused to completed or cancelled); any operation that
errors leaves the session, all fields included, unchanged; an operation
attempted from a status where it is not allowed returns
InvalidStateTransition carrying that status; and from the terminal
statuses completed and cancelled every sequence of operations leaves
the session unchanged. -/
theorem lifecycle_safety :
    (∀ (s : Session) (op : LifecycleOp) (now : Int),
      (applyOp s op now).2 = none →
      legalEdge s.status ((applyOp s op now).1).status) ∧
    (∀ (s : Session) (op : LifecycleOp) (now : Int) (e : RegError),
      (applyOp s op now).2 = some e → (applyOp s op now).1 = s) ∧
    (∀ (s : Session) (op : LifecycleOp) (now : Int),
      opAllowed op s.status = false →
      applyOp s op now = (s, some (RegError.invalidStateTransition s.status))) ∧
    (∀ (s : Session) (ops : List (LifecycleOp × Int)),
      s.status.isTerminal = true → applySeq s ops = s) :=
  ⟨applyOp_ok_legal, applyOp_error_unchanged, applyOp_not_allowed, applySeq_terminal⟩

theorem lifecycle_safety_witness :
    (opAllowed LifecycleOp.pause (Fixtures.doneSession 0).status = false ∧
      applyOp (Fixtures.doneSession 0) LifecycleOp.pause 10 =
        (Fixtures.doneSession 0,
         some (RegError.invalidStateTransition Status.completed))) ∧
    ((Fixtures.cancelledSession).status.isTerminal = true ∧
      applySeq Fixtures.cancelledSession
        [(LifecycleOp.pause, 1), (LifecycleOp.endSession Fixtures.exEndData, 2)] =
        Fixtures.cancelledSession) :=
  ⟨⟨by decide,
    (lifecycle_safety.2.2.1 (Fixtures.doneSession 0) LifecycleOp.pause 10
      (by decide)).trans (by decide)⟩,
   ⟨by decide,
    lifecycle_safety.2.2.2 Fixtures.cancelledSession _ (by decide)⟩⟩

end LifecycleFacts

section ConcurrentSessionFacts

open FlowState FlowState.Registry

theorem start_ok_of_valid (reg : SessionsState) (user : Nat)
    (d : TimeTracker.SessionData) (now : Int) (h : validStartInputs d) :
    start reg user d now = Except.ok
      ({ sessions := reg.sessions ++ [newSession reg.nextId user d now]
         nextId := reg.nextId + 1
         vocabulary := recordTag reg.vocabulary (d.main_tag, d.sub_tag) },
       newSession reg.nextId user d now) := by
  obtain ⟨h1, h2, h3, h4⟩ := h
  unfold start
  rw [if_neg h1, if_neg (by omega), if_neg (by simp [h4])]

theorem listActive_state_append (l1 l2 : List Session) (n : Nat)
    (v : List (String × Option String)) (user : Nat) (now : Int) :
    listActive ⟨l1 ++ l2, n, v⟩ user now =
      listActive ⟨l1, n, v⟩ user now ++ listActive ⟨l2, n, v⟩ user now := by
  unfold listActive
  simp [List.filter_append]

theorem listActive_singleton_active (s : Session) (n : Nat)
    (v : List (String × Option String)) (user : Nat) (now : Int)
    (hu : s.user_id = user) (hl : s.status.isLive = true) :
    listActive ⟨[s], n, v⟩ user now =
      [⟨s, Int.fdiv (now - s.start_time) 60⟩] := by
  unfold listActive
  simp [List.filter, hu, hl]

theorem listActive_sessions_only (reg1 reg2 : SessionsState)
    (h : reg1.sessions = reg2.sessions) (user : Nat) (now : Int) :
    listActive reg1 user now = listActive reg2 user now := by
  unfold listActive
  rw [h]

theorem startMany_ok_of_valid (user : Nat) (now : Int)
    (ds : List TimeTracker.SessionData) (h : ∀ d ∈ ds, validStartInputs d) :
    ∀ reg : SessionsState, ∃ reg2,
      startMany reg user ds now = Except.ok reg2 ∧
      (listActive reg2 user now).length =
        (listActive reg user now).length + ds.length := by
  induction ds with
  | nil => intro reg; exact ⟨reg, rfl, by simp⟩
  | cons d rest ih =>
    intro reg
    have hd : validStartInputs d := h d (by simp)
    have hstep := start_ok_of_valid reg user d now hd
    obtain ⟨reg2, hrun, hlen⟩ :=
      ih (fun x hx => h x (by simp [hx]))
        ⟨reg.sessions ++ [newSession reg.nextId user d now], reg.nextId + 1,
         recordTag reg.vocabulary (d.main_tag, d.sub_tag)⟩
    refine ⟨reg2, ?_, ?_⟩
    · unfold startMany
      rw [hstep]
      exact hrun
    · rw [hlen]
      have hcount :
          (listActive
            ⟨reg.sessions ++ [newSession reg.nextId user d now], reg.nextId + 1,
             recordTag reg.vocabulary (d.main_tag, d.sub_tag)⟩ user now).length =
          (listActive reg user now).length + 1 := by
        simp [listActive, List.filter_append, newSession, List.filter,
          Status.isLive]
      rw [hcount]
      simp only [List.length_cons]
      omega

theorem listActive_mem_iff (reg : SessionsState) (user : Nat) (now : Int)
    (v : ActiveSessionView) :
    v ∈ listActive reg user now ↔
      ∃ s, s ∈ reg.sessions ∧ s.user_id = user ∧ s.status.isLive = true ∧
        v = ⟨s, Int.fdiv (now - s.start_time) 60⟩ := by
  unfold listActive
  simp only [List.mem_map, List.mem_filter, Bool.and_eq_true, beq_iff_eq]
  constructor
  · rintro ⟨s, ⟨hs, hu, hl⟩, rfl⟩
    exact ⟨s, hs, hu, hl, rfl⟩
  · rintro ⟨s, hs, hu, hl, rfl⟩
    exact ⟨s, ⟨hs, hu, hl⟩, rfl⟩

/-- C2: There is no upper limit on concurrently active sessions for a
user: any number of valid start operations all succeed, each adding one
entry to the active listing; the listing contains an entry for every
active or paused session of the user; and every listed entry carries a
duration_minutes computed live from now and the session start time. -/
theorem unlimited_concurrent_sessions :
    (∀ (reg : SessionsState) (user : Nat) (ds : List TimeTracker.SessionData)
        (now : Int), (∀ d ∈ ds, validStartInputs d) →
      ∃ reg2, startMany reg user ds now = Except.ok reg2 ∧
        (listActive reg2 user now).length =
          (listActive reg user now).length + ds.length) ∧
    (∀ (reg : SessionsState) (user : Nat) (now : Int) (s : Session),
      s ∈ reg.sessions → s.user_id = user → s.status.isLive = true →
      (⟨s, Int.fdiv (now - s.start_time) 60⟩ : ActiveSessionView) ∈
        listActive reg user now) ∧
    (∀ (reg : SessionsState) (user : Nat) (now : Int) (v : ActiveSessionView),
      v ∈ listActive reg user now →
      v.duration_minutes = Int.fdiv (now - v.session.start_time) 60 ∧
      v.session.user_id = user ∧ v.session.status.isLive = true) := by
  refine ⟨?_, ?_, ?_⟩
  · intro reg user ds now h
    exact startMany_ok_of_valid user now ds h reg
  · intro reg user now s hs hu hl
    exact (listActive_mem_iff reg user now _).mpr ⟨s, hs, hu, hl, rfl⟩
  · intro reg user now v hv
    obtain ⟨s, _, hu, hl, rfl⟩ := (listActive_mem_iff reg user now v).mp hv
    exact ⟨rfl, hu, hl⟩

theorem unlimited_concurrent_sessions_witness :
    (∀ d ∈ [Fixtures.dWork, Fixtures.dLearning], validStartInputs d) ∧
    ∃ reg2, startMany Fixtures.emptyReg 1 [Fixtures.dWork, Fixtures.dLearning] 0 =
        Except.ok reg2 ∧
      (listActive reg2 1 0).length =
        (listActive Fixtures.emptyReg 1 0).length + 2 :=
  ⟨by decide,
   unlimited_concurrent_sessions.1 Fixtures.emptyReg 1
     [Fixtures.dWork, Fixtures.dLearning] 0 (by decide)⟩

end ConcurrentSessionFacts

section PatternsFacts

open FlowState FlowState.Registry FlowState.Aggregator

theorem patterns_computed_iff (reg : SessionsState) (user : Nat) (now : Int) :
    (∃ ps, patterns reg user now = PatternsResult.computed ps) ↔
      minimumSessionsForPatterns ≤ (completedSessions reg user).length := by
  unfold patterns
  by_cases h : (completedSessions reg user).length < minimumSessionsForPatterns
  · rw [if_pos h]
    simp only [minimumSessionsForPatterns] at h ⊢
    constructor
    · rintro ⟨ps, hps⟩
      exact absurd hps (by simp)
    · intro hge
      omega
  · rw [if_neg h]
    simp only [minimumSessionsForPatterns] at h ⊢
    constructor
    · intro _
      omega
    · intro _
      exact ⟨_, rfl⟩

/-- C3: patterns returns the computed-patterns shape exactly when the
user has at least 10 total completed sessions; with fewer it returns
the insufficient-data shape carrying the message, the required
threshold 10 and the current count; and the Analytics consumer renders
the two shapes differently, so they are distinguishable. -/
theorem patterns_gating :
    (∀ (reg : SessionsState) (user : Nat) (now : Int),
      (∃ ps, patterns reg user now = PatternsResult.computed ps) ↔
        10 ≤ (completedSessions reg user).length) ∧
    (∀ (reg : SessionsState) (user : Nat) (now : Int),
      (completedSessions reg user).length < 10 →
      patterns reg user now = PatternsResult.insufficientData
        insufficientMessage 10 (completedSessions reg user).length) ∧
    (∀ (reg : SessionsState) (user : Nat) (now : Int),
      (completedSessions reg user).length < 10 →
      Analytics.renderPatternsSection (some (patterns reg user now)) =
        Analytics.PatternsRender.insufficientBox insufficientMessage 10
          (completedSessions reg user).length) ∧
    (∀ (reg : SessionsState) (user : Nat) (now : Int),
      10 ≤ (completedSessions reg user).length →
      ∀ msg req cur,
        Analytics.renderPatternsSection (some (patterns reg user now)) ≠
          Analytics.PatternsRender.insufficientBox msg req cur) := by
  have hinsuff : ∀ (reg : SessionsState) (user : Nat) (now : Int),
      (completedSessions reg user).length < 10 →
      patterns reg user now = PatternsResult.insufficientData
        insufficientMessage 10 (completedSessions reg user).length := by
    intro reg user now h
    unfold patterns
    rw [if_pos (by simpa [minimumSessionsForPatterns] using h)]
    rfl
  refine ⟨patterns_computed_iff, hinsuff, ?_, ?_⟩
  · intro reg user now h
    rw [hinsuff reg user now h]
    simp only [Analytics.renderPatternsSection]
    rw [if_pos (by decide)]
  · intro reg user now h msg req cur
    obtain ⟨ps, hps⟩ := (patterns_computed_iff reg user now).mpr
      (by simpa [minimumSessionsForPatterns] using h)
    rw [hps]
    simp only [Analytics.renderPatternsSection]
    by_cases hlen : 0 < ps.length
    · rw [if_pos hlen]
      simp
    · rw [if_neg hlen]
      simp

theorem patterns_gating_witness :
    ((completedSessions Fixtures.reg9 1).length < 10 ∧
      patterns Fixtures.reg9 1 7200 =
        PatternsResult.insufficientData insufficientMessage 10 9) ∧
    (10 ≤ (completedSessions Fixtures.reg10 1).length ∧
      ∃ ps, patterns Fixtures.reg10 1 7200 = PatternsResult.computed ps) :=
  ⟨⟨by decide,
    (patterns_gating.2.1 Fixtures.reg9 1 7200 (by decide)).trans (by decide)⟩,
   ⟨by decide,
    (patterns_gating.1 Fixtures.reg10 1 7200).mpr (by decide)⟩⟩

end PatternsFacts

section ConfidenceFacts

open FlowState FlowState.Aggregator

theorem confidenceForSampleSize_char (n : Nat) :
    (confidenceForSampleSize n = none ↔ n < 10) ∧
    (confidenceForSampleSize n = some "low" ↔ 10 ≤ n ∧ n < 30) ∧
    (confidenceForSampleSize n = some "moderate" ↔ 30 ≤ n ∧ n < 100) ∧
    (confidenceForSampleSize n = some "high" ↔ 100 ≤ n) := by
  unfold confidenceForSampleSize
  refine ⟨?_, ?_, ?_, ?_⟩ <;>
    split_ifs with h1 h2 h3 <;> simp_all <;> omega

/-- C4: Confidence is a function of sample size alone: no insight is
emitted below sample size 10; the confidence is low on 10 to 29,
moderate on 30 to 99 and high from 100 up; two insights with different
content but the same sample size carry the same confidence; and the
same content at sizes 15, 50 and 150 yields low, moderate and high. -/
theorem insight_confidence_thresholds :
    (∀ n : Nat,
      (confidenceForSampleSize n = none ↔ n < 10) ∧
      (confidenceForSampleSize n = some "low" ↔ 10 ≤ n ∧ n < 30) ∧
      (confidenceForSampleSize n = some "moderate" ↔ 30 ≤ n ∧ n < 100) ∧
      (confidenceForSampleSize n = some "high" ↔ 100 ≤ n)) ∧
    (∀ (desc : String) (ev : List String) (lim : String) (n : Nat),
      maybeInsight desc ev lim n = none ↔ n < 10) ∧
    (∀ (d1 : String) (e1 : List String) (l1 : String)
       (d2 : String) (e2 : List String) (l2 : String) (n : Nat)
       (i1 i2 : Insight),
      maybeInsight d1 e1 l1 n = some i1 → maybeInsight d2 e2 l2 n = some i2 →
      i1.confidence = i2.confidence) ∧
    (∀ (desc : String) (ev : List String) (lim : String),
      (maybeInsight desc ev lim 15).map Insight.confidence = some "low" ∧
      (maybeInsight desc ev lim 50).map Insight.confidence = some "moderate" ∧
      (maybeInsight desc ev lim 150).map Insight.confidence = some "high") := by
  refine ⟨confidenceForSampleSize_char, ?_, ?_, ?_⟩
  · intro desc ev lim n
    unfold maybeInsight
    rw [Option.map_eq_none']
    exact (confidenceForSampleSize_char n).1
  · intro d1 e1 l1 d2 e2 l2 n i1 i2 h1 h2
    unfold maybeInsight at h1 h2
    obtain ⟨c1, hc1, hi1⟩ := Option.map_eq_some'.mp h1
    obtain ⟨c2, hc2, hi2⟩ := Option.map_eq_some'.mp h2
    rw [← hi1, ← hi2]
    rw [hc1] at hc2
    rw [(Option.some.injEq _ _).mp hc2]
  · intro desc ev lim
    refine ⟨?_, ?_, ?_⟩ <;>
      simp [maybeInsight, confidenceForSampleSize]

theorem insight_confidence_thresholds_witness :
    (maybeInsight "most time" [] "limits" 9 = none) ∧
    ((maybeInsight "most time" [] "limits" 15).map Insight.confidence = some "low") ∧
    ((maybeInsight "most time" [] "limits" 50).map Insight.confidence = some "moderate") ∧
    ((maybeInsight "most time" [] "limits" 150).map Insight.confidence = some "high") :=
  ⟨(insight_confidence_thresholds.2.1 "most time" [] "limits" 9).mpr (by norm_num),
   (insight_confidence_thresholds.2.2.2 "most time" [] "limits").1,
   (insight_confidence_thresholds.2.2.2 "most time" [] "limits").2.1,
   (insight_confidence_thresholds.2.2.2 "most time" [] "limits").2.2⟩

end ConfidenceFacts

section DailySummaryFacts

open FlowState FlowState.Registry FlowState.Aggregator

theorem dailySummary_empty (reg : SessionsState) (user : Nat) (date : Int)
    (now : Int) (h : includedForDate reg.sessions user date = []) :
    dailySummary reg user date now =
      { total_minutes := 0, entries_count := 0, average_energy := none,
        average_focus := none, categories := [] } := by
  unfold dailySummary
  rw [h]
  rfl

/-- C8: dailySummary for a date with zero included completed sessions
returns entries_count 0 with both averages null; the averages are null
exactly when entries_count is zero, so the mean is never computed over
an empty set; and the consumers in Dashboard.js and demo.html render a
null average as the N/A text. -/
theorem daily_summary_zero_division_guard :
    (∀ (reg : SessionsState) (user : Nat) (date : Int) (now : Int),
      includedForDate reg.sessions user date = [] →
      dailySummary reg user date now =
        { total_minutes := 0, entries_count := 0, average_energy := none,
          average_focus := none, categories := [] }) ∧
    (∀ (reg : SessionsState) (user : Nat) (date : Int) (now : Int),
      (dailySummary reg user date now).entries_count = 0 →
      (dailySummary reg user date now).average_energy = none ∧
      (dailySummary reg user date now).average_focus = none) ∧
    Dashboard.renderAvgEnergy none = "N/A" ∧
    Demo.renderAvgEnergy none = "N/A" ++ "/5" ∧
    Demo.renderAvgFocus none = "N/A" ++ "/5" := by
  refine ⟨dailySummary_empty, ?_, rfl, rfl, rfl⟩
  intro reg user date now h
  unfold dailySummary at h ⊢
  dsimp only at h ⊢
  rw [if_pos h, if_pos h]
  exact ⟨rfl, rfl⟩

theorem daily_summary_zero_division_guard_witness :
    includedForDate Fixtures.regCancelledOnly.sessions 1 0 = [] ∧
    dailySummary Fixtures.regCancelledOnly 1 0 7200 =
      { total_minutes := 0, entries_count := 0, average_energy := none,
        average_focus := none, categories := [] } :=
  ⟨by decide,
   daily_summary_zero_division_guard.1 Fixtures.regCancelledOnly 1 0 7200 (by decide)⟩

end DailySummaryFacts

section StartValidationFacts

open FlowState FlowState.Registry FlowState.TimeTracker

/-- C5: Every start request that is actually issued carries the
case-normalized tag: main_tag is the lowercased and trimmed form of the
input, sub_tag is the lowercased and trimmed form when the input field
is non-empty and null otherwise, the request carries the ordered pair
of the two fields, and the voice start path issues exactly the request
the form path would issue, so the normalization applies to both. -/
theorem tag_normalized_at_write :
    (∀ (form : SessionForm) (d : SessionData),
      handleStartSession form = StartOutcome.request d →
      d.main_tag = jsTrim (jsToLower form.main_tag) ∧
      d.sub_tag =
        (if form.sub_tag ≠ "" then some (jsTrim (jsToLower form.sub_tag))
         else none)) ∧
    (∀ (form : SessionForm) (userTags : List String) (command : String)
        (r : StartOutcome),
      voicePathOutcome form userTags command = some r →
      r = handleStartSession form) := by
  constructor
  · intro form d h
    unfold handleStartSession at h
    by_cases hb : jsTrim form.main_tag = ""
    · rw [if_pos hb] at h
      exact absurd h (by simp)
    · rw [if_neg hb] at h
      have hd : sessionDataOf form = d := by
        injection h
      rw [← hd]
      exact ⟨rfl, rfl⟩
  · intro form userTags command r h
    unfold voicePathOutcome at h
    cases hpv : processVoiceCommand form.main_tag userTags command <;>
      rw [hpv] at h <;> simp_all

theorem tag_normalized_at_write_witness :
    handleStartSession Fixtures.exForm =
      StartOutcome.request (sessionDataOf Fixtures.exForm) ∧
    (sessionDataOf Fixtures.exForm).main_tag =
      jsTrim (jsToLower Fixtures.exForm.main_tag) ∧
    (sessionDataOf Fixtures.exForm).main_tag = "work" ∧
    (sessionDataOf Fixtures.exForm).sub_tag = some "client" :=
  ⟨by decide,
   (tag_normalized_at_write.1 Fixtures.exForm (sessionDataOf Fixtures.exForm)
     (by decide)).1,
   by decide, by decide⟩

/-- C6: A start whose main_tag is empty after trimming fails
immediately: the form handler alerts and returns before any request is
issued, so no session is created and no tag is recorded; and even a
direct registry start with a blank normalized main_tag returns
ValidationError and yields no state. -/
theorem empty_main_tag_rejected :
    (∀ form : SessionForm, jsTrim form.main_tag = "" →
      handleStartSession form = StartOutcome.alertMainTagRequired) ∧
    (∀ (reg : SessionsState) (user : Nat) (form : SessionForm) (now : Int),
      jsTrim form.main_tag = "" →
      FlowState.submitStart reg user form now = none) ∧
    (∀ (reg : SessionsState) (user : Nat) (d : SessionData) (now : Int),
      jsTrim d.main_tag = "" →
      Registry.start reg user d now =
        Except.error RegError.validationError) := by
  refine ⟨?_, ?_, ?_⟩
  · intro form h
    unfold handleStartSession
    rw [if_pos h]
  · intro reg user form now h
    unfold FlowState.submitStart handleStartSession
    rw [if_pos h]
  · intro reg user d now h
    unfold Registry.start
    rw [if_pos h]

theorem empty_main_tag_rejected_witness :
    jsTrim Fixtures.exFormBlank.main_tag = "" ∧
    handleStartSession Fixtures.exFormBlank =
      StartOutcome.alertMainTagRequired ∧
    FlowState.submitStart Fixtures.emptyReg 1 Fixtures.exFormBlank 0 = none :=
  ⟨by decide,
   empty_main_tag_rejected.1 Fixtures.exFormBlank (by decide),
   empty_main_tag_rejected.2.1 Fixtures.emptyReg 1 Fixtures.exFormBlank 0 (by decide)⟩

/-- C7: A start whose supplied estimated_minutes parses to a
non-positive integer fails with ValidationError and creates no session;
a start with the field omitted (empty) succeeds, other inputs being
valid, and the created session has estimated_minutes null. -/
theorem estimated_minutes_validation :
    (∀ (reg : SessionsState) (user : Nat) (form : SessionForm) (now : Int)
        (k : Int),
      jsTrim form.main_tag ≠ "" →
      form.estimated_minutes ≠ "" →
      jsParseInt form.estimated_minutes = some k → k ≤ 0 →
      FlowState.submitStart reg user form now =
        some (Except.error RegError.validationError)) ∧
    (∀ (reg : SessionsState) (user : Nat) (form : SessionForm) (now : Int),
      jsTrim form.main_tag ≠ "" →
      1 ≤ form.energy_level → form.energy_level ≤ 5 →
      form.estimated_minutes = "" →
      ∃ reg2 s, FlowState.submitStart reg user form now =
          some (Except.ok (reg2, s)) ∧
        s.estimated_minutes = none) := by
  constructor
  · intro reg user form now k hmain hne hparse hk
    unfold FlowState.submitStart handleStartSession
    rw [if_neg hmain]
    show some (Registry.start reg user (sessionDataOf form) now) = _
    have hest : (sessionDataOf form).estimated_minutes = some k := by
      unfold sessionDataOf
      dsimp only
      rw [if_pos hne]
      exact hparse
    have hbad : estimatedMinutesBad (sessionDataOf form).estimated_minutes = true := by
      rw [hest]
      show (if k ≤ 0 then true else false) = true
      rw [if_pos hk]
    unfold Registry.start
    by_cases h1 : jsTrim (sessionDataOf form).main_tag = ""
    · rw [if_pos h1]
    · rw [if_neg h1]
      by_cases h2 : (sessionDataOf form).energy_level < 1 ∨
          5 < (sessionDataOf form).energy_level
      · rw [if_pos h2]
      · rw [if_neg h2, if_pos hbad]
  · intro reg user form now hmain he1 he2 hempty
    unfold FlowState.submitStart handleStartSession
    rw [if_neg hmain]
    have hnorm : (sessionDataOf form).main_tag = jsTrim (jsToLower form.main_tag) := rfl
    have h1 : ¬ jsTrim (sessionDataOf form).main_tag = "" := by
      rw [hnorm, jsTrim_idem, jsTrim_toLower_eq_empty_iff]
      exact hmain
    have hest : (sessionDataOf form).estimated_minutes = none := by
      unfold sessionDataOf
      dsimp only
      rw [if_neg (by simp [hempty])]
    have hbad : estimatedMinutesBad (sessionDataOf form).estimated_minutes = false := by
      rw [hest]
      rfl
    have h2 : ¬ ((sessionDataOf form).energy_level < 1 ∨
        5 < (sessionDataOf form).energy_level) := by
      have : (sessionDataOf form).energy_level = form.energy_level := rfl
      rw [this]
      omega
    refine ⟨⟨reg.sessions ++ [newSession reg.nextId user (sessionDataOf form) now],
        reg.nextId + 1,
        recordTag reg.vocabulary
          ((sessionDataOf form).main_tag, (sessionDataOf form).sub_tag)⟩,
      newSession reg.nextId user (sessionDataOf form) now, ?_, ?_⟩
    · show some (Registry.start reg user (sessionDataOf form) now) = _
      unfold Registry.start
      rw [if_neg h1, if_neg h2, if_neg (by simp [hbad])]
    · show (newSession reg.nextId user (sessionDataOf form) now).estimated_minutes = none
      unfold newSession
      exact hest

theorem estimated_minutes_validation_witness :
    (jsTrim Fixtures.exFormZeroEst.main_tag ≠ "" ∧
      jsParseInt Fixtures.exFormZeroEst.estimated_minutes = some 0 ∧
      FlowState.submitStart Fixtures.emptyReg 1 Fixtures.exFormZeroEst 0 =
        some (Except.error RegError.validationError)) ∧
    (Fixtures.exForm.estimated_minutes = "" ∧
      ∃ reg2 s, FlowState.submitStart Fixtures.emptyReg 1 Fixtures.exForm 0 =
          some (Except.ok (reg2, s)) ∧
        s.estimated_minutes = none) :=
  ⟨⟨by decide, by decide,
    estimated_minutes_validation.1 Fixtures.emptyReg 1 Fixtures.exFormZeroEst 0 0
      (by decide) (by decide) (by decide) (by norm_num)⟩,
   ⟨by decide,
    estimated_minutes_validation.2 Fixtures.emptyReg 1 Fixtures.exForm 0
      (by decide) (by decide) (by decide) (by decide)⟩⟩

end StartValidationFacts

section VoiceCommandFacts

open FlowState FlowState.TimeTracker

/-- C10 counterexample: the transcript xyz is non-empty and is not a
start command, so the claim predicts that its first word becomes the
main tag; but with no known user tags the code leaves the form
unchanged, because the single word is not recognized and there is no
second word. -/
theorem processVoiceCommand_counterexample :
    (jsIncludes "xyz" "start" = false ∧ jsIncludes "xyz" "begin" = false ∧
      ("xyz" : String) ≠ "go" ∧ ("xyz" : String) ≠ "") ∧
    processVoiceCommand "" [] "xyz" = VoiceAction.unrecognized ∧
    processVoiceCommand "" [] "xyz" ≠ VoiceAction.setTags "xyz" "" :=
  ⟨by decide, by decide, by decide⟩

/-- C10 amended: start commands take precedence and never set the tag
fields: a transcript containing start or begin, or equal to go, starts
a session when the current main tag is non-blank and otherwise alerts.
For every other transcript whose space-separated word list is
non-empty, the tags are set from the first word and the remaining words
joined with a dash, both lowercased, but only when the first word
matches a known or common tag or there is more than one word; a single
unrecognized word leaves the form unchanged. -/
theorem processVoiceCommand_amended :
    (∀ (mt : String) (ut : List String) (cmd : String),
      (jsIncludes cmd "start" = true ∨ jsIncludes cmd "begin" = true ∨
        cmd = "go") →
      processVoiceCommand mt ut cmd =
        (if jsTrim mt ≠ "" then VoiceAction.startSession
         else VoiceAction.alertSetTagFirst) ∧
      ∀ a b, processVoiceCommand mt ut cmd ≠ VoiceAction.setTags a b) ∧
    (∀ (mt : String) (ut : List String) (cmd : String)
        (w : String) (rest : List String),
      ¬(jsIncludes cmd "start" = true ∨ jsIncludes cmd "begin" = true ∨
        cmd = "go") →
      (jsSplitOnSpace cmd).filter (fun x => 0 < x.length) = w :: rest →
      (isValidMainTag ut w = true ∨ rest ≠ []) →
      processVoiceCommand mt ut cmd =
        VoiceAction.setTags (jsToLower w)
          (jsToLower
            (if 0 < rest.length then String.intercalate "-" rest else ""))) ∧
    (∀ (mt : String) (ut : List String) (cmd : String) (w : String),
      ¬(jsIncludes cmd "start" = true ∨ jsIncludes cmd "begin" = true ∨
        cmd = "go") →
      (jsSplitOnSpace cmd).filter (fun x => 0 < x.length) = [w] →
      isValidMainTag ut w = false →
      processVoiceCommand mt ut cmd = VoiceAction.unrecognized) := by
  refine ⟨?_, ?_, ?_⟩
  · intro mt ut cmd h
    constructor
    · unfold processVoiceCommand
      rw [if_pos h]
    · intro a b
      unfold processVoiceCommand
      rw [if_pos h]
      by_cases hmt : jsTrim mt ≠ ""
      · rw [if_pos hmt]; simp
      · rw [if_neg hmt]; simp
  · intro mt ut cmd w rest hns hw hok
    unfold processVoiceCommand
    rw [if_neg hns]
    dsimp only
    rw [hw]
    rw [if_pos (by simp)]
    dsimp only [List.headD, List.drop]
    rw [if_pos ?cond]
    case cond =>
      rcases hok with hv | hr
      · left; exact hv
      · right
        have : 0 < rest.length := List.length_pos.mpr hr
        simp only [List.length_cons]
        omega
  · intro mt ut cmd w hns hw hinvalid
    unfold processVoiceCommand
    rw [if_neg hns]
    dsimp only
    rw [hw]
    rw [if_pos (by simp)]
    dsimp only [List.headD, List.drop]
    rw [if_neg ?cond2]
    case cond2 =>
      intro hcontra
      rcases hcontra with hv | hlen
      · rw [hinvalid] at hv
        exact absurd hv (by simp)
      · simp at hlen

theorem processVoiceCommand_amended_witness :
    (jsIncludes "startup marketing" "start" = true ∧
      processVoiceCommand "" [] "startup marketing" =
        VoiceAction.alertSetTagFirst ∧
      processVoiceCommand "work" [] "start session" =
        VoiceAction.startSession) ∧
    ((jsSplitOnSpace "work client project").filter (fun x => 0 < x.length) =
        ["work", "client", "project"] ∧
      processVoiceCommand "" [] "work client project" =
        VoiceAction.setTags "work" "client-project") :=
  ⟨⟨by decide,
    ((processVoiceCommand_amended.1 "" [] "startup marketing"
      (Or.inl (by decide))).1).trans (by decide),
    ((processVoiceCommand_amended.1 "work" [] "start session"
      (Or.inl (by decide))).1).trans (by decide)⟩,
   ⟨by decide,
    (processVoiceCommand_amended.2.1 "" [] "work client project" "work"
      ["client", "project"] (by decide) (by decide)
      (Or.inl (by decide))).trans (by decide)⟩⟩

end VoiceCommandFacts
